import Mathlib

/-!
Shallow embedding of `bin/setup-kegbot.py` (Kegbot Server setup program).

The program is a step-sequencing setup wizard: an ordered list of
configuration steps, each with get/validate/save/apply/add_to_settings
hooks, driven by a two-pass runner (`SetupApp.build` collects and
validates values into a shared context, `SetupApp._MainLoop` then applies
side effects, writes the generated settings file, and runs post-setup
administrative commands).

Python library operations used by the script (`os.path.expanduser`,
`os.path.join`, `os.path.dirname`, `os.path.exists`, `os.listdir`,
`os.makedirs`, file writing, `str.split`, `subprocess.call`) are modelled
over an explicit filesystem value and a command-exit-code environment.
-/

namespace KegbotSetup

/-! ### String helpers (modelling Python `str` operations over `List Char`) -/

/-- Boolean list-of-characters check used to model `str.startswith`. -/
def isPrefixL : List Char → List Char → Bool
  | [], _ => true
  | _ :: _, [] => false
  | p :: ps, c :: cs => p = c && isPrefixL ps cs

/-- Models Python `pre in s` substring containment (used only in theorem
statements about the generated settings text). -/
def containsL (pat : List Char) : List Char → Bool
  | [] => pat.isEmpty
  | c :: cs => isPrefixL pat (c :: cs) || containsL pat cs

/-- Substring containment on strings. -/
def strContains (s pat : String) : Bool := containsL pat.data s.data

/-- Models `s.startswith(pre)`. -/
def strStartsWith (s pre : String) : Bool := isPrefixL pre.data s.data

/-- Models `s.endswith(suf)`. -/
def strEndsWith (s suf : String) : Bool := isPrefixL suf.data.reverse s.data.reverse

/-- Whitespace test for Python `str.split()` (the commands in the script
contain only plain spaces). -/
def isSpace (c : Char) : Bool := c = ' ' || c = '\t' || c = '\n' || c = '\r'

/-- Accumulating worker for `pySplit`. -/
def pySplitAux (cur : List Char) : List Char → List String
  | [] => if cur.isEmpty then [] else [String.mk cur.reverse]
  | c :: cs =>
    if isSpace c then
      if cur.isEmpty then pySplitAux [] cs
      else String.mk cur.reverse :: pySplitAux [] cs
    else pySplitAux (c :: cur) cs

/-- Models Python `s.split()`: split on runs of whitespace, dropping empty
pieces (used by `SetupApp.run_command`). -/
def pySplit (s : String) : List String := pySplitAux [] s.data

/-! ### Path helpers (modelling `os.path`) -/

/-- Models `os.path.expanduser` for the home directory `home`: a leading
plain tilde is replaced by `home`.  (The `~user` form for other users is
left unexpanded in this model; the script only ever receives plain `~/`
defaults.) -/
def expanduser (home p : String) : String :=
  if p = "~" then home
  else if strStartsWith p "~/" then home ++ String.mk (p.data.drop 1)
  else p

/-- Models `os.path.join(a, b)` for two components, per `posixpath.join`. -/
def joinPath (a b : String) : String :=
  if strStartsWith b "/" then b
  else if a = "" || strEndsWith a "/" then a ++ b
  else a ++ "/" ++ b

/-- Models `os.path.dirname` (`posixpath.dirname`): the part of the path up
to the last slash, with trailing slashes stripped unless the result is all
slashes. -/
def dirname (p : String) : String :=
  let headRev := p.data.reverse.dropWhile (fun c => !(c = '/'))
  let head := headRev.reverse
  if head.isEmpty then ""
  else if head.all (fun c => c = '/') then String.mk head
  else String.mk (head.reverse.dropWhile (fun c => c = '/')).reverse

/-! ### Filesystem model -/

/-- A filesystem snapshot: regular files with their contents, and
directories with their listings.  `os.makedirs` is modelled as adding the
leaf directory (intermediate directories are not tracked; no claim depends
on them). -/
structure FileSystem where
  files : List (String × String)
  dirs : List (String × List String)
  deriving Repr, DecidableEq

/-- Models `os.path.exists`. -/
def pathExists (fs : FileSystem) (p : String) : Bool :=
  fs.files.any (fun e => e.1 = p) || fs.dirs.any (fun e => e.1 = p)

/-- Models `os.path.isdir`. -/
def isDir (fs : FileSystem) (p : String) : Bool :=
  fs.dirs.any (fun e => e.1 = p)

/-- Models `os.listdir`: `some` listing for a directory, `none` (an
`OSError`) otherwise. -/
def listdir (fs : FileSystem) (p : String) : Option (List String) :=
  (fs.dirs.find? (fun e => e.1 = p)).map (fun e => e.2)

/-- Models `os.makedirs`: fails (`none`, an `OSError`) when the leaf path
already exists, otherwise records the new directory. -/
def makedirs (fs : FileSystem) (p : String) : Option FileSystem :=
  if pathExists fs p then none
  else some { fs with dirs := (p, []) :: fs.dirs }

/-- Models opening a path with mode `w+` and writing `content`: the file is
created or truncated and replaced. -/
def writeFile (fs : FileSystem) (p : String) (content : String) : FileSystem :=
  { fs with files := (p, content) :: fs.files.filter (fun e => !(e.1 = p)) }

/-- Content of the regular file at `p`, when one exists. -/
def fileContent (fs : FileSystem) (p : String) : Option String :=
  (fs.files.find? (fun e => e.1 = p)).map (fun e => e.2)

end KegbotSetup

namespace KegbotSetup

/-! ### Flags, environment, context, errors -/

/-- Command-line flags of the script (`gflags.DEFINE_*`), with their
declared defaults available to concrete runs. -/
structure Flags where
  interactive : Bool
  settings_file : String
  data_root : String
  db_type : String
  mysql_user : String
  mysql_password : String
  mysql_database : String
  sqlite_file : String
  timezone : String

/-- Ambient process environment: whether the Python Imaging Library can be
imported, the home directory used by `os.path.expanduser`, and the exit
code returned by `subprocess.call` for a given argument vector. -/
structure Env where
  pilAvailable : Bool
  home : String
  cmdExit : List String → Int

/-- Resolved value of a step: absent (the base `SetupStep` has none), a
string, or the `(user, password, database)` MySQL tuple. -/
inductive StepValue where
  | noneVal
  | str (s : String)
  | mysql (user password database : String)
  deriving Repr, DecidableEq

/-- Shared context of a run: `ctx[step_class] = value`, keyed by the step
class name (the script uses the class object itself as the key). -/
abbrev Ctx := List (String × StepValue)

/-- Dictionary lookup `ctx[key]`. -/
def ctxGet (ctx : Ctx) (k : String) : Option StepValue :=
  (ctx.find? (fun e => e.1 = k)).map (fun e => e.2)

/-- Dictionary update `ctx[key] = v`. -/
def ctxSet (ctx : Ctx) (k : String) (v : StepValue) : Ctx :=
  (k, v) :: ctx.filter (fun e => !(e.1 = k))

/-- Exceptions a step hook can raise: `ValueError` (illegal value),
`FatalError` (the cannot-proceed class defined by the script itself), or any other Python
exception (`KeyError`, `TypeError`, `OSError`, ...) that no handler in the
script catches. -/
inductive StepError where
  | valueError (msg : String)
  | fatalError (msg : String)
  | pyCrash (msg : String)
  deriving Repr, DecidableEq

/-! ### Settings output -/

/-- Fixed header written at the top of the generated settings file
(`SETTINGS_TEMPLATE` in the script). -/
def SETTINGS_TEMPLATE : String :=
  "# Kegbot local settings.\n# Auto-generated, but safe to edit by hand.\n# See http://kegbot.org/docs/server/ for more info.\n\n# NEVER set DEBUG to `True` in production.\nDEBUG = True\nTEMPLATE_DEBUT = DEBUG\n\n"

/-- The `cfg` dictionary built by `ConfigureDatabase.add_to_settings`. -/
inductive DBConfig where
  | sqlite (name : String)
  | mysql (database user password : String)
  deriving Repr, DecidableEq

/-- Models `pprint.pprint(cfg, stream=outfd, indent=2)`: a deterministic
rendering of the configuration dictionary with keys in sorted order and a
trailing newline.  (The real `pprint` may wrap long lines; key-value pairs
are rendered contiguously here, which is all the claims inspect.) -/
def renderDBConfig : DBConfig → String
  | .sqlite name =>
      "\x7b\x27default\x27: \x7b\x27ENGINE\x27: \x27django.db.backends.sqlite3\x27, \x27NAME\x27: \x27"
        ++ name ++ "\x27\x7d\x7d\n"
  | .mysql database user password =>
      "\x7b\x27default\x27: \x7b\x27ENGINE\x27: \x27django.db.backends.mysql\x27, \x27NAME\x27: \x27"
        ++ database
        ++ "\x27, \x27OPTIONS\x27: \x7b\x27init_command\x27: \x27SET storage_engine=INNODB\x27\x7d, \x27PASSWORD\x27: \x27"
        ++ password ++ "\x27, \x27USER\x27: \x27" ++ user ++ "\x27\x7d\x7d\n"

/-! ### Step records

Each step is a record of its non-interactive lifecycle hooks.  `getFlag`
is `get(interactive=False, ctx)` (which stores `get_from_flag(ctx)` into
`self.value`); `validate`, `save`, `applyStep` (`apply`) and
`addToSettings` (`add_to_settings`) follow the source.  The mutable
`self.value` is threaded explicitly through `validate` and recovered by
`applyStep`/`addToSettings` from the context, into which `save` (and the
base `SetupStep.validate`) always store it. -/

structure Step where
  name : String
  getFlag : Flags → Ctx → Except StepError StepValue
  validate : Env → FileSystem → StepValue → Ctx → Except StepError (StepValue × Ctx)
  save : StepValue → Ctx → Ctx
  applyStep : FileSystem → Ctx → Except StepError FileSystem
  addToSettings : Ctx → Except StepError String

end KegbotSetup

namespace KegbotSetup

/-! ### The five concrete steps -/

/-- Step `RequiredLibraries`: no flag and no value; `validate` raises
`FatalError` when the Python Imaging Library cannot be imported (neither
`PIL` nor the legacy top-level modules). -/
def RequiredLibraries : Step where
  name := "RequiredLibraries"
  getFlag := fun _ _ => .ok .noneVal
  validate := fun env _ v ctx =>
    if env.pilAvailable then .ok (v, ctx)
    else .error (.fatalError
      "Could not locate Python Imaging Library, please install it (\"pip install pillow\" or \"apt-get install python-imaging\")")
  save := fun _ ctx => ctx
  applyStep := fun fs _ => .ok fs
  addToSettings := fun _ => .ok ""

/-- Step `SettingsPath`: value from flag `settings_file`; `validate`
expands the user directory and rejects an already-existing path;
`apply` re-checks existence (raising `FatalError`) and creates the
containing directory when missing. -/
def SettingsPath : Step where
  name := "SettingsPath"
  getFlag := fun flags _ => .ok (.str flags.settings_file)
  validate := fun env fs v ctx =>
    match v with
    | .str s =>
      let s := expanduser env.home s
      if pathExists fs s then
        .error (.valueError ("Settings file \"" ++ s ++ "\" already exists."))
      else
        .ok (.str s, ctxSet ctx "SettingsPath" (.str s))
    | _ => .error (.pyCrash "expanduser on a non-string value")
  save := fun v ctx => ctxSet ctx "SettingsPath" v
  applyStep := fun fs ctx =>
    match ctxGet ctx "SettingsPath" with
    | some (.str s) =>
      if pathExists fs s then
        .error (.fatalError ("Settings file \"" ++ s ++ "\" already exists."))
      else
        let d := dirname s
        if !(d = "") && !(isDir fs d) then
          match makedirs fs d with
          | some fs' => .ok fs'
          | none => .error (.fatalError ("Couldn\x27t create settings dir \x27" ++ d ++ "\x27"))
        else .ok fs
    | _ => .error (.pyCrash "SettingsPath value missing")
  addToSettings := fun _ => .ok ""

/-- Step `KegbotDataRoot`: value from flag `data_root`; `validate` expands
the user directory and rejects an existing path with a non-empty listing
(listing a non-directory raises an uncaught `OSError`); `apply` creates
the data root plus its `media` and `static` subdirectories, turning
`OSError` into `FatalError`; `add_to_settings` emits the `MEDIA_ROOT` and
`STATIC_ROOT` assignments. -/
def KegbotDataRoot : Step where
  name := "KegbotDataRoot"
  getFlag := fun flags _ => .ok (.str flags.data_root)
  validate := fun env fs v ctx =>
    match v with
    | .str s =>
      let s := expanduser env.home s
      if pathExists fs s then
        match listdir fs s with
        | some l =>
          if !(l = []) then
            .error (.valueError ("Path \"" ++ s ++ "\" already exists and is not empty."))
          else .ok (.str s, ctxSet ctx "KegbotDataRoot" (.str s))
        | none => .error (.pyCrash "listdir on a non-directory")
      else .ok (.str s, ctxSet ctx "KegbotDataRoot" (.str s))
    | _ => .error (.pyCrash "expanduser on a non-string value")
  save := fun v ctx => ctxSet ctx "KegbotDataRoot" v
  applyStep := fun fs ctx =>
    match ctxGet ctx "KegbotDataRoot" with
    | some (.str s) =>
      match (if !(isDir fs s) then makedirs fs s else some fs) with
      | none => .error (.fatalError ("Could not create directory \"" ++ s ++ "\""))
      | some fs1 =>
        match makedirs fs1 (joinPath s "media") with
        | none => .error (.fatalError ("Could not create directory \"" ++ s ++ "\""))
        | some fs2 =>
          match makedirs fs2 (joinPath s "static") with
          | none => .error (.fatalError ("Could not create directory \"" ++ s ++ "\""))
          | some fs3 => .ok fs3
    | _ => .error (.pyCrash "KegbotDataRoot value missing")
  addToSettings := fun ctx =>
    match ctxGet ctx "KegbotDataRoot" with
    | some (.str s) =>
      .ok ("MEDIA_ROOT = \x27" ++ joinPath s "media" ++ "\x27\n"
        ++ "STATIC_ROOT = \x27" ++ joinPath s "static" ++ "\x27\n"
        ++ "\n")
    | _ => .error (.pyCrash "KegbotDataRoot value missing")

/-- Step `DatabaseChoice`: value from flag `db_type`; `validate` is the
inherited `ConfigurationSetupStep.validate` with
`CHOICES = [sqlite, mysql]` (any value outside the list, string or not,
raises `ValueError`). -/
def DatabaseChoice : Step where
  name := "DatabaseChoice"
  getFlag := fun flags _ => .ok (.str flags.db_type)
  validate := fun _ _ v ctx =>
    match v with
    | .str s =>
      if !(s = "sqlite") && !(s = "mysql") then
        .error (.valueError "Value must be one of: sqlite, mysql")
      else .ok (.str s, ctxSet ctx "DatabaseChoice" (.str s))
    | _ => .error (.valueError "Value must be one of: sqlite, mysql")
  save := fun v ctx => ctxSet ctx "DatabaseChoice" v
  applyStep := fun fs _ => .ok fs
  addToSettings := fun _ => .ok ""

/-- Step `ConfigureDatabase`: in non-interactive mode `get_from_flag`
returns `FLAGS.sqlite_file` when `ctx[DatabaseChoice]` is `sqlite`
(without joining it to the data root) and the MySQL credential tuple
otherwise; `validate` branches the same way; `add_to_settings` writes the
`DATABASES` assignment. -/
def ConfigureDatabase : Step where
  name := "ConfigureDatabase"
  getFlag := fun flags ctx =>
    match ctxGet ctx "DatabaseChoice" with
    | some (.str "sqlite") => .ok (.str flags.sqlite_file)
    | some _ => .ok (.mysql flags.mysql_user flags.mysql_password flags.mysql_database)
    | none => .error (.pyCrash "KeyError: DatabaseChoice")
  validate := fun env fs v ctx =>
    match ctxGet ctx "DatabaseChoice" with
    | none => .error (.pyCrash "KeyError: DatabaseChoice")
    | some dbt =>
      if dbt = .str "sqlite" then
        match v with
        | .str s =>
          let s := expanduser env.home s
          if pathExists fs s then
            .error (.valueError ("SQLite database file already exists: " ++ s))
          else .ok (.str s, ctxSet ctx "ConfigureDatabase" (.str s))
        | _ => .error (.pyCrash "expanduser on a non-string value")
      else
        match v with
        | .mysql user _ database =>
          if user = "" then .error (.valueError "Must give a MySQL username")
          else if database = "" then .error (.valueError "Must give a MySQL database name")
          else .ok (v, ctxSet ctx "ConfigureDatabase" v)
        | _ => .error (.pyCrash "cannot unpack value into (user, password, database)")
  save := fun v ctx => ctxSet ctx "ConfigureDatabase" v
  applyStep := fun fs _ => .ok fs
  addToSettings := fun ctx =>
    match ctxGet ctx "DatabaseChoice" with
    | none => .error (.pyCrash "KeyError: DatabaseChoice")
    | some dbt =>
      match ctxGet ctx "ConfigureDatabase" with
      | none => .error (.pyCrash "ConfigureDatabase value missing")
      | some v =>
        if dbt = .str "sqlite" then
          match v with
          | .str s => .ok ("DATABASES = " ++ renderDBConfig (.sqlite s) ++ "\n")
          | _ => .error (.pyCrash "expected a string sqlite value")
        else
          match v with
          | .mysql user password database =>
            .ok ("DATABASES = " ++ renderDBConfig (.mysql database user password) ++ "\n")
          | _ => .error (.pyCrash "cannot unpack value into (user, password, database)")

/-- The fixed step order (`STEPS` in the script). -/
def STEPS : List Step :=
  [RequiredLibraries, SettingsPath, KegbotDataRoot, DatabaseChoice, ConfigureDatabase]

end KegbotSetup

namespace KegbotSetup

/-! ### Runner -/

/-- Observable actions of a run, in order: `apply` hook invoked, settings
file opened for writing, `add_to_settings` hook invoked, administrative
command executed. -/
inductive Event where
  | applyCalled (stepName : String)
  | openedFile (path : String)
  | emitted (stepName : String)
  | ranCommand (argv : List String)
  deriving Repr, DecidableEq

/-- How a run ends: normal completion; `sys.exit(1)` after printing
`ERROR: msg`; an uncaught `FatalError` or `ValueError` propagating out of
`_MainLoop`; or an uncaught exception of any other class. -/
inductive Outcome where
  | success
  | exit1 (msg : String)
  | uncaughtFatal (msg : String)
  | uncaughtValue (msg : String)
  | crash (msg : String)
  deriving Repr, DecidableEq

/-- Final state of a modelled run: outcome, filesystem, event trace. -/
structure RunResult where
  outcome : Outcome
  fs : FileSystem
  trace : List Event
  deriving Repr, DecidableEq

/-- One `get(interactive=False) / validate / save` round for one step, as
performed by the body of the loop in `SetupApp.build`. -/
def stepRunOnce (env : Env) (fs : FileSystem) (flags : Flags) (st : Step) (ctx : Ctx) :
    Except StepError Ctx :=
  match st.getFlag flags ctx with
  | .error e => .error e
  | .ok v =>
    match st.validate env fs v ctx with
    | .error e => .error e
    | .ok (v', ctx') => .ok (st.save v' ctx')

/-- Models `SetupApp.build`: run each step in order; `ValueError` and
`FatalError` are caught, printed as `ERROR: msg` and turn into
`sys.exit(1)`; any other exception propagates. -/
def buildSteps (env : Env) (fs : FileSystem) (flags : Flags) :
    List Step → Ctx → Except Outcome Ctx
  | [], ctx => .ok ctx
  | st :: rest, ctx =>
    match stepRunOnce env fs flags st ctx with
    | .ok ctx' => buildSteps env fs flags rest ctx'
    | .error (.valueError m) => .error (.exit1 m)
    | .error (.fatalError m) => .error (.exit1 m)
    | .error (.pyCrash m) => .error (.crash m)

/-- The full non-interactive first pass over `STEPS`, starting from the
empty context. -/
def build (env : Env) (fs : FileSystem) (flags : Flags) : Except Outcome Ctx :=
  buildSteps env fs flags STEPS []

/-- Models the `for step in steps: step.apply(ctx)` loop of
`SetupApp._MainLoop`: returns the events, the filesystem reached, and the
first uncaught exception if any. -/
def applySteps (ctx : Ctx) : List Step → FileSystem →
    List Event × FileSystem × Option StepError
  | [], fs => ([], fs, none)
  | st :: rest, fs =>
    match st.applyStep fs ctx with
    | .error e => ([.applyCalled st.name], fs, some e)
    | .ok fs' =>
      let r := applySteps ctx rest fs'
      (.applyCalled st.name :: r.1, r.2.1, r.2.2)

/-- Models the `for step in steps: step.add_to_settings(ctx, outfd)` loop:
returns the events, the concatenated fragments written before any
exception, and the first uncaught exception if any. -/
def emitSteps (ctx : Ctx) : List Step → List Event × String × Option StepError
  | [] => ([], "", none)
  | st :: rest =>
    match st.addToSettings ctx with
    | .error e => ([.emitted st.name], "", some e)
    | .ok frag =>
      let r := emitSteps ctx rest
      (.emitted st.name :: r.1, frag ++ r.2.1, r.2.2)

/-- The fixed post-setup command strings run by `SetupApp.finish_setup`,
in order, depending on the `interactive` flag. -/
def finishCommands (interactive : Bool) : List String :=
  ["kegbot-admin.py syncdb --all --noinput -v 0",
   "kegbot-admin.py migrate --all --fake --noinput -v 0",
   "kegbot-admin.py kb_set_defaults --force"]
  ++ (if interactive then
        ["kegbot-admin.py collectstatic", "kegbot-admin.py createsuperuser"]
      else
        ["kegbot-admin.py collectstatic --noinput"])

/-- Models repeated `SetupApp.run_command`: each command string is split on
whitespace and executed; a non-zero exit status raises `ValueError`
(`Command returned non-zero exit status (ret)`), stopping the sequence.
Returns the argument vectors actually executed and the error message, if
any. -/
def run_command_seq (cmdExit : List String → Int) :
    List String → List (List String) × Option String
  | [] => ([], none)
  | c :: rest =>
    let argv := pySplit c
    let ret := cmdExit argv
    if !(ret = 0) then
      ([argv], some ("Command returned non-zero exit status (" ++ toString ret ++ ")"))
    else
      let r := run_command_seq cmdExit rest
      (argv :: r.1, r.2)

/-- Models the second half of `SetupApp._MainLoop`, after the context has
been built: apply every step in order; open `ctx[SettingsPath]` and write
the template followed by the settings fragment of every step; then run
`finish_setup`.  Exceptions here are caught by no handler in the script. -/
def mainLoopSecondPass (env : Env) (fs : FileSystem) (flags : Flags) (ctx : Ctx) : RunResult :=
  let ar := applySteps ctx STEPS fs
  match ar.2.2 with
  | some (.fatalError m) => ⟨.uncaughtFatal m, ar.2.1, ar.1⟩
  | some (.valueError m) => ⟨.uncaughtValue m, ar.2.1, ar.1⟩
  | some (.pyCrash m) => ⟨.crash m, ar.2.1, ar.1⟩
  | none =>
    match ctxGet ctx "SettingsPath" with
    | some (.str path) =>
      if isDir ar.2.1 path then ⟨.crash "IsADirectoryError", ar.2.1, ar.1⟩
      else
        let er := emitSteps ctx STEPS
        let fs2 := writeFile ar.2.1 path (SETTINGS_TEMPLATE ++ er.2.1)
        let evs := ar.1 ++ .openedFile path :: er.1
        match er.2.2 with
        | some (.fatalError m) => ⟨.uncaughtFatal m, fs2, evs⟩
        | some (.valueError m) => ⟨.uncaughtValue m, fs2, evs⟩
        | some (.pyCrash m) => ⟨.crash m, fs2, evs⟩
        | none =>
          let cr := run_command_seq env.cmdExit (finishCommands flags.interactive)
          let evs := evs ++ cr.1.map .ranCommand
          match cr.2 with
          | some m => ⟨.uncaughtValue m, fs2, evs⟩
          | none => ⟨.success, fs2, evs⟩
    | _ => ⟨.crash "KeyError: SettingsPath", ar.2.1, ar.1⟩

/-- Models `SetupApp._MainLoop` for a non-interactive run
(`FLAGS.interactive` false): first pass `build`, then the apply/write/
finish second pass. -/
def runNonInteractive (env : Env) (fs : FileSystem) (flags : Flags) : RunResult :=
  match build env fs flags with
  | .error o => ⟨o, fs, []⟩
  | .ok ctx => mainLoopSecondPass env fs flags ctx

/-! ### Interactive step loop (abstract)

`SetupApp.build_interactive` wraps every step in a retry loop.  One
`Attempt` is the observable outcome of one `get(interactive=True) /
validate / save` round (prompt input included). -/

/-- Outcome of one interactive round for a step. -/
inductive Attempt where
  | ok (v : StepValue)
  | valueErr (msg : String)
  | fatalErr (msg : String)
  | interrupt
  deriving Repr, DecidableEq

/-- Result of the per-step `while` loop in `build_interactive`. -/
inductive StepLoopResult where
  | passed (v : StepValue)
  | exited
  | awaiting
  deriving Repr, DecidableEq

/-- Models the per-step `while` loop of `SetupApp.build_interactive` over
the stream of round outcomes: success breaks out of the loop,
`KeyboardInterrupt` and `FatalError` call `sys.exit(1)`, and `ValueError`
prints the error and loops for another prompt; an exhausted stream means
the loop is still prompting. -/
def build_interactive_step : List Attempt → StepLoopResult
  | [] => .awaiting
  | .ok v :: _ => .passed v
  | .valueErr _ :: rest => build_interactive_step rest
  | .fatalErr _ :: _ => .exited
  | .interrupt :: _ => .exited

end KegbotSetup

namespace KegbotSetup

/-! ### Concrete scenarios used by counterexamples and witnesses -/

/-- Environment with the imaging library installed, home `/home/kb`, and
every administrative command succeeding. -/
def env0 : Env := { pilAvailable := true, home := "/home/kb", cmdExit := fun _ => 0 }

/-- Empty filesystem. -/
def fs0 : FileSystem := { files := [], dirs := [] }

/-- Flag defaults declared by the script, with `interactive` off. -/
def flags0 : Flags :=
  { interactive := false, settings_file := "~/.kegbot/local_settings.py",
    data_root := "~/kegbot-data", db_type := "sqlite", mysql_user := "root",
    mysql_password := "", mysql_database := "kegbot", sqlite_file := "kegbot.sqlite",
    timezone := "America/Los_Angeles" }

/-- Filesystem in which `/d/f` is a regular file. -/
def fsC : FileSystem := { files := [("/d/f", "")], dirs := [] }

/-- Flags whose settings path sits below the regular file `/d/f`: every
step passes validation, but the apply pass cannot create the settings
directory. -/
def flagsC : Flags :=
  { interactive := false, settings_file := "/d/f/local_settings.py",
    data_root := "/d/root", db_type := "sqlite", mysql_user := "root",
    mysql_password := "", mysql_database := "kegbot", sqlite_file := "kb.sqlite",
    timezone := "America/Los_Angeles" }

/-- Flags whose settings path IS the data root: every step passes
validation and every `apply` hook succeeds (`KegbotDataRoot.apply`
silently creates a directory at the settings path), but opening the
settings file for writing then dies of the uncaught
`IOError (Is a directory)`. -/
def flagsD : Flags :=
  { interactive := false, settings_file := "/d/root",
    data_root := "/d/root", db_type := "sqlite", mysql_user := "root",
    mysql_password := "", mysql_database := "kegbot", sqlite_file := "kb.sqlite",
    timezone := "America/Los_Angeles" }

/-- Flags selecting an unsupported database type. -/
def flagsBadDb : Flags :=
  { interactive := false, settings_file := "~/.kegbot/local_settings.py",
    data_root := "~/kegbot-data", db_type := "postgres", mysql_user := "root",
    mysql_password := "", mysql_database := "kegbot", sqlite_file := "kegbot.sqlite",
    timezone := "America/Los_Angeles" }

/-- Flags selecting MySQL with an empty username. -/
def flagsMysqlNoUser : Flags :=
  { interactive := false, settings_file := "~/.kegbot/local_settings.py",
    data_root := "~/kegbot-data", db_type := "mysql", mysql_user := "",
    mysql_password := "", mysql_database := "kegbot", sqlite_file := "kegbot.sqlite",
    timezone := "America/Los_Angeles" }

/-- Environment without the imaging library. -/
def envNoPil : Env := { pilAvailable := false, home := "/home/kb", cmdExit := fun _ => 0 }

/-- Context produced by a successful default non-interactive first pass
(`build env0 fs0 flags0`). -/
def ctx0 : Ctx :=
  [("ConfigureDatabase", .str "kegbot.sqlite"),
   ("DatabaseChoice", .str "sqlite"),
   ("KegbotDataRoot", .str "/home/kb/kegbot-data"),
   ("SettingsPath", .str "/home/kb/.kegbot/local_settings.py")]

/-- The `apply` hook of a step never touches regular files (the hooks only
create directories). -/
def PreservesFiles (st : Step) : Prop :=
  ∀ fs ctx fs', st.applyStep fs ctx = .ok fs' → fs'.files = fs.files

end KegbotSetup

namespace KegbotSetup

/-! ### Helper lemmas: strings and containment -/

theorem strData_append (a b : String) : (a ++ b).data = a.data ++ b.data := rfl

theorem isPrefixL_append_same (xs ys zs : List Char) :
    isPrefixL (xs ++ ys) (xs ++ zs) = isPrefixL ys zs := by
  induction xs with
  | nil => rfl
  | cons c cs ih => simp [isPrefixL, ih]

theorem containsL_of_isPrefixL {pat cs : List Char} (h : isPrefixL pat cs = true) :
    containsL pat cs = true := by
  cases cs with
  | nil =>
    cases pat with
    | nil => rfl
    | cons p ps => simp [isPrefixL] at h
  | cons c cs' => simp [containsL, h]

theorem containsL_append_left {pat cs : List Char} (bs : List Char)
    (h : containsL pat cs = true) : containsL pat (bs ++ cs) = true := by
  induction bs with
  | nil => simpa using h
  | cons b bs' ih => simp [containsL, ih]

end KegbotSetup

namespace KegbotSetup

/-! ### Helper lemmas: filesystem -/

theorem pathExists_of_fileContent {fs : FileSystem} {q c} (h : fileContent fs q = some c) :
    pathExists fs q = true := by
  unfold fileContent at h
  unfold pathExists
  cases hf : fs.files.find? (fun e => e.1 = q) with
  | none => rw [hf] at h; simp at h
  | some e =>
    have hmem := List.mem_of_find?_eq_some hf
    have hp := List.find?_some hf
    simp only [Bool.or_eq_true, List.any_eq_true]
    exact Or.inl ⟨e, hmem, hp⟩

theorem listdir_pathExists {fs : FileSystem} {p l} (h : listdir fs p = some l) :
    pathExists fs p = true := by
  unfold listdir at h
  unfold pathExists
  cases hf : fs.dirs.find? (fun e => e.1 = p) with
  | none => rw [hf] at h; simp at h
  | some e =>
    have hmem := List.mem_of_find?_eq_some hf
    have hp := List.find?_some hf
    simp only [Bool.or_eq_true, List.any_eq_true]
    exact Or.inr ⟨e, hmem, hp⟩

theorem fileContent_eq_of_files_eq {fs fs' : FileSystem} (h : fs'.files = fs.files) (q : String) :
    fileContent fs' q = fileContent fs q := by
  unfold fileContent; rw [h]

theorem fileContent_writeFile_self (fs : FileSystem) (p c : String) :
    fileContent (writeFile fs p c) p = some c := by
  simp [fileContent, writeFile, List.find?]

theorem find?_filter_ne {p q : String} (hne : ¬(q = p)) (l : List (String × String)) :
    (l.filter (fun e => !(e.1 = p))).find? (fun e => e.1 = q) = l.find? (fun e => e.1 = q) := by
  induction l with
  | nil => rfl
  | cons e l' ih =>
    by_cases heq : e.1 = q
    · have hep : ¬(e.1 = p) := by rw [heq]; exact hne
      simp [List.filter, List.find?, hep, heq, ih, hne]
    · by_cases hep : e.1 = p
      · have hpq : ¬(p = q) := by rw [← hep]; exact heq
        simp [List.filter, List.find?, hep, heq, ih, hpq]
      · simp [List.filter, List.find?, hep, heq, ih]

theorem fileContent_writeFile_ne {q p : String} (hne : ¬(q = p)) (fs : FileSystem) (c : String) :
    fileContent (writeFile fs p c) q = fileContent fs q := by
  have hpq : ¬(p = q) := fun h => hne h.symm
  simp only [fileContent, writeFile]
  rw [List.find?]
  simp only [hpq, decide_False]
  rw [find?_filter_ne hne]

theorem makedirs_eq_some {fs fs' : FileSystem} {p : String} (h : makedirs fs p = some fs') :
    fs'.files = fs.files ∧ fs'.dirs = (p, []) :: fs.dirs := by
  unfold makedirs at h
  by_cases he : pathExists fs p
  · rw [he] at h; simp at h
  · simp only [he] at h
    cases h
    exact ⟨rfl, rfl⟩

end KegbotSetup

namespace KegbotSetup

/-! ### Helper lemmas: the apply pass -/

theorem preservesFiles_STEPS : ∀ st ∈ STEPS, PreservesFiles st := by
  intro st hst
  simp only [STEPS, List.mem_cons, List.not_mem_nil, or_false] at hst
  rcases hst with h | h | h | h | h
  · subst h; intro fs ctx fs' hap
    simp only [RequiredLibraries] at hap
    cases hap; rfl
  · subst h; intro fs ctx fs' hap
    simp only [SettingsPath] at hap
    cases hcg : ctxGet ctx "SettingsPath" with
    | none => rw [hcg] at hap; cases hap
    | some v =>
      rw [hcg] at hap
      cases v with
      | str s =>
        by_cases hex : pathExists fs s
        · simp [hex] at hap
        · simp only [hex, Bool.false_eq_true, if_false] at hap
          by_cases hd : !(dirname s = "") && !(isDir fs (dirname s))
          · rw [if_pos hd] at hap
            cases hmk : makedirs fs (dirname s) with
            | none => rw [hmk] at hap; cases hap
            | some fsm =>
              rw [hmk] at hap
              cases hap
              exact (makedirs_eq_some hmk).1
          · rw [if_neg hd] at hap
            cases hap; rfl
      | noneVal => cases hap
      | mysql u p d => cases hap
  · subst h; intro fs ctx fs' hap
    simp only [KegbotDataRoot] at hap
    cases hcg : ctxGet ctx "KegbotDataRoot" with
    | none => rw [hcg] at hap; cases hap
    | some v =>
      rw [hcg] at hap
      cases v with
      | str s =>
        dsimp only at hap
        cases h1 : (if !(isDir fs s) then makedirs fs s else some fs) with
        | none => rw [h1] at hap; cases hap
        | some fs1 =>
          rw [h1] at hap
          dsimp only at hap
          have hf1 : fs1.files = fs.files := by
            by_cases hd : isDir fs s
            · simp only [hd] at h1; cases h1; rfl
            · simp only [hd] at h1
              simp at h1
              exact (makedirs_eq_some h1).1
          cases h2 : makedirs fs1 (joinPath s "media") with
          | none => rw [h2] at hap; cases hap
          | some fs2 =>
            rw [h2] at hap
            dsimp only at hap
            cases h3 : makedirs fs2 (joinPath s "static") with
            | none => rw [h3] at hap; cases hap
            | some fs3 =>
              rw [h3] at hap
              cases hap
              rw [(makedirs_eq_some h3).1, (makedirs_eq_some h2).1, hf1]
      | noneVal => cases hap
      | mysql u p d => cases hap
  · subst h; intro fs ctx fs' hap
    simp only [DatabaseChoice] at hap
    cases hap; rfl
  · subst h; intro fs ctx fs' hap
    simp only [ConfigureDatabase] at hap
    cases hap; rfl

theorem applySteps_files (ctx : Ctx) (steps : List Step)
    (h : ∀ st ∈ steps, PreservesFiles st) :
    ∀ fs, ((applySteps ctx steps fs).2.1).files = fs.files := by
  induction steps with
  | nil => intro fs; rfl
  | cons st rest ih =>
    intro fs
    simp only [applySteps]
    cases hap : st.applyStep fs ctx with
    | error e => rfl
    | ok fs' =>
      have h1 := h st (List.mem_cons_self st rest)
      have h2 := ih (fun s hs => h s (List.mem_cons_of_mem st hs)) fs'
      simpa [h2] using (h1 fs ctx fs' hap)

theorem applySteps_ok_events (ctx : Ctx) (steps : List Step) :
    ∀ fs, (applySteps ctx steps fs).2.2 = none →
      (applySteps ctx steps fs).1 = steps.map (fun st => Event.applyCalled st.name) := by
  induction steps with
  | nil => intro fs _; rfl
  | cons st rest ih =>
    intro fs h
    simp only [applySteps] at h ⊢
    cases hap : st.applyStep fs ctx with
    | error e => rw [hap] at h; simp at h
    | ok fs' =>
      rw [hap] at h
      simp only [List.map_cons, List.cons.injEq, true_and]
      exact ih fs' h

end KegbotSetup

namespace KegbotSetup

/-! ### Helper lemmas: emit pass and command runner -/

theorem emitSteps_ok_events (ctx : Ctx) (steps : List Step)
    (h : (emitSteps ctx steps).2.2 = none) :
    (emitSteps ctx steps).1 = steps.map (fun st => Event.emitted st.name) := by
  induction steps with
  | nil => rfl
  | cons st rest ih =>
    simp only [emitSteps] at h ⊢
    cases hem : st.addToSettings ctx with
    | error e => rw [hem] at h; simp at h
    | ok frag =>
      rw [hem] at h
      simp only [List.map_cons, List.cons.injEq, true_and]
      exact ih h

theorem run_command_seq_take (e : List String → Int) (cs : List String) :
    ∃ t, (run_command_seq e cs).1 ++ t = cs.map pySplit := by
  induction cs with
  | nil => exact ⟨[], rfl⟩
  | cons c rest ih =>
    simp only [run_command_seq, List.map_cons]
    by_cases hr : e (pySplit c) = 0
    · obtain ⟨t, ht⟩ := ih
      simp only [hr]
      exact ⟨t, by simp [ht]⟩
    · simp only [hr]
      exact ⟨rest.map pySplit, by simp⟩

theorem run_command_seq_all_zero (e : List String → Int) (cs : List String)
    (h : ∀ c ∈ cs, e (pySplit c) = 0) :
    run_command_seq e cs = (cs.map pySplit, none) := by
  induction cs with
  | nil => rfl
  | cons c rest ih =>
    have hc := h c (List.mem_cons_self c rest)
    have ih' := ih (fun c' hc' => h c' (List.mem_cons_of_mem c hc'))
    simp [run_command_seq, hc, ih']

theorem run_command_seq_fails_at (e : List String → Int) (pre : List String) (c : String)
    (post : List String) (hpre : ∀ c' ∈ pre, e (pySplit c') = 0)
    (hc : ¬(e (pySplit c) = 0)) :
    run_command_seq e (pre ++ c :: post) =
      (pre.map pySplit ++ [pySplit c],
        some ("Command returned non-zero exit status (" ++ toString (e (pySplit c)) ++ ")")) := by
  induction pre with
  | nil => simp [run_command_seq, hc]
  | cons p rest ih =>
    have hp := hpre p (List.mem_cons_self p rest)
    have ih' := ih (fun c' hc' => hpre c' (List.mem_cons_of_mem p hc'))
    simp [List.cons_append, run_command_seq, hp, ih']

end KegbotSetup

namespace KegbotSetup

/-! ### Structural characterization of the two `_MainLoop` loops on `STEPS` -/

theorem applySteps_STEPS_eq (ctx : Ctx) (fs : FileSystem) :
    applySteps ctx STEPS fs =
      match SettingsPath.applyStep fs ctx with
      | .error e =>
          ([.applyCalled "RequiredLibraries", .applyCalled "SettingsPath"], fs, some e)
      | .ok fsA =>
        match KegbotDataRoot.applyStep fsA ctx with
        | .error e =>
            ([.applyCalled "RequiredLibraries", .applyCalled "SettingsPath",
              .applyCalled "KegbotDataRoot"], fsA, some e)
        | .ok fsB =>
            ([.applyCalled "RequiredLibraries", .applyCalled "SettingsPath",
              .applyCalled "KegbotDataRoot", .applyCalled "DatabaseChoice",
              .applyCalled "ConfigureDatabase"], fsB, none) := by
  cases hSP : SettingsPath.applyStep fs ctx with
  | error e =>
    simp [STEPS, applySteps, RequiredLibraries, hSP]
    exact rfl
  | ok fsA =>
    cases hKDR : KegbotDataRoot.applyStep fsA ctx with
    | error e =>
      simp [STEPS, applySteps, RequiredLibraries, DatabaseChoice, ConfigureDatabase, hSP, hKDR]
      exact ⟨rfl, rfl⟩
    | ok fsB =>
      simp [STEPS, applySteps, RequiredLibraries, DatabaseChoice, ConfigureDatabase, hSP, hKDR]
      exact ⟨rfl, rfl⟩

theorem emitSteps_STEPS_eq (ctx : Ctx) :
    emitSteps ctx STEPS =
      match KegbotDataRoot.addToSettings ctx with
      | .error e =>
          ([.emitted "RequiredLibraries", .emitted "SettingsPath", .emitted "KegbotDataRoot"],
            "" ++ ("" ++ ""), some e)
      | .ok f3 =>
        match ConfigureDatabase.addToSettings ctx with
        | .error e =>
            ([.emitted "RequiredLibraries", .emitted "SettingsPath", .emitted "KegbotDataRoot",
              .emitted "DatabaseChoice", .emitted "ConfigureDatabase"],
              "" ++ ("" ++ (f3 ++ ("" ++ ""))), some e)
        | .ok f5 =>
            ([.emitted "RequiredLibraries", .emitted "SettingsPath", .emitted "KegbotDataRoot",
              .emitted "DatabaseChoice", .emitted "ConfigureDatabase"],
              "" ++ ("" ++ (f3 ++ ("" ++ (f5 ++ "")))), none) := by
  cases h3 : KegbotDataRoot.addToSettings ctx with
  | error e =>
    simp [STEPS, emitSteps, RequiredLibraries, SettingsPath, DatabaseChoice, h3]
    exact rfl
  | ok f3 =>
    cases h5 : ConfigureDatabase.addToSettings ctx with
    | error e =>
      simp [STEPS, emitSteps, RequiredLibraries, SettingsPath, DatabaseChoice, h3, h5]
      exact ⟨rfl, rfl⟩
    | ok f5 =>
      simp [STEPS, emitSteps, RequiredLibraries, SettingsPath, DatabaseChoice, h3, h5]
      exact ⟨rfl, rfl⟩

end KegbotSetup

namespace KegbotSetup

/-! ### Per-step behavior lemmas -/

theorem settingsPath_apply_of_exists {ctx : Ctx} {fs : FileSystem} {p : String}
    (hsp : ctxGet ctx "SettingsPath" = some (.str p))
    (hex : pathExists fs p = true) :
    SettingsPath.applyStep fs ctx =
      .error (.fatalError ("Settings file \"" ++ p ++ "\" already exists.")) := by
  simp [SettingsPath, hsp, hex]

theorem settingsPath_apply_ok_not_exists {ctx : Ctx} {fs fsA : FileSystem} {p : String}
    (hsp : ctxGet ctx "SettingsPath" = some (.str p))
    (hok : SettingsPath.applyStep fs ctx = .ok fsA) :
    pathExists fs p = false := by
  cases hex : pathExists fs p with
  | false => rfl
  | true => rw [settingsPath_apply_of_exists hsp hex] at hok; cases hok

theorem isDir_makedirs_self {fs fs' : FileSystem} {p : String}
    (h : makedirs fs p = some fs') : isDir fs' p = true := by
  rw [isDir, (makedirs_eq_some h).2]
  simp [List.any]

theorem isDir_makedirs_mono {fs fs' : FileSystem} {p q : String}
    (h : makedirs fs p = some fs') (hq : isDir fs q = true) : isDir fs' q = true := by
  rw [isDir, (makedirs_eq_some h).2]
  rw [isDir] at hq
  simp [List.any, hq]

theorem kegbotDataRoot_apply_ok_dirs {ctx : Ctx} {fsA fsB : FileSystem} {v : String}
    (hdr : ctxGet ctx "KegbotDataRoot" = some (.str v))
    (hok : KegbotDataRoot.applyStep fsA ctx = .ok fsB) :
    isDir fsB (joinPath v "media") = true ∧ isDir fsB (joinPath v "static") = true := by
  simp only [KegbotDataRoot] at hok
  rw [hdr] at hok
  dsimp only at hok
  cases h1 : (if !(isDir fsA v) then makedirs fsA v else some fsA) with
  | none => rw [h1] at hok; cases hok
  | some fs1 =>
    rw [h1] at hok
    dsimp only at hok
    cases h2 : makedirs fs1 (joinPath v "media") with
    | none => rw [h2] at hok; cases hok
    | some fs2 =>
      rw [h2] at hok
      dsimp only at hok
      cases h3 : makedirs fs2 (joinPath v "static") with
      | none => rw [h3] at hok; cases hok
      | some fs3 =>
        rw [h3] at hok
        cases hok
        exact ⟨isDir_makedirs_mono h3 (isDir_makedirs_self h2), isDir_makedirs_self h3⟩

theorem kegbotDataRoot_emit {ctx : Ctx} {v : String}
    (hdr : ctxGet ctx "KegbotDataRoot" = some (.str v)) :
    KegbotDataRoot.addToSettings ctx =
      .ok ("MEDIA_ROOT = \x27" ++ joinPath v "media" ++ "\x27\n"
        ++ "STATIC_ROOT = \x27" ++ joinPath v "static" ++ "\x27\n"
        ++ "\n") := by
  simp [KegbotDataRoot, hdr]

theorem isDir_writeFile (fs : FileSystem) (p c q : String) :
    isDir (writeFile fs p c) q = isDir fs q := rfl

/-! ### Claim C10 -/

/-- Claim C10: for every run, the apply phase of the settings-path step
re-checks whether the settings file exists and raises a fatal error if it
does, before the file is opened for writing: whatever the flags and
however the context was built, if the resolved settings path exists in the
filesystem at apply time, `_MainLoop` aborts with the uncaught
`FatalError`, the filesystem is returned unchanged (nothing written), and
the trace shows only the first two apply calls — no file was opened. -/
theorem c10_apply_recheck_blocks_overwrite (env : Env) (fs : FileSystem) (flags : Flags)
    (ctx : Ctx) (p : String)
    (hsp : ctxGet ctx "SettingsPath" = some (.str p))
    (hex : pathExists fs p = true) :
    mainLoopSecondPass env fs flags ctx =
      ⟨.uncaughtFatal ("Settings file \"" ++ p ++ "\" already exists."), fs,
        [.applyCalled "RequiredLibraries", .applyCalled "SettingsPath"]⟩ := by
  simp only [mainLoopSecondPass, applySteps_STEPS_eq, settingsPath_apply_of_exists hsp hex]

/-- Witness for C10 at a concrete context and filesystem. -/
theorem c10_witness :
    ctxGet [("SettingsPath", StepValue.str "/s")] "SettingsPath" = some (.str "/s") ∧
    pathExists { files := [("/s", "old")], dirs := [] } "/s" = true ∧
    mainLoopSecondPass env0 { files := [("/s", "old")], dirs := [] } flags0
        [("SettingsPath", StepValue.str "/s")] =
      ⟨.uncaughtFatal "Settings file \"/s\" already exists.",
        { files := [("/s", "old")], dirs := [] },
        [.applyCalled "RequiredLibraries", .applyCalled "SettingsPath"]⟩ :=
  ⟨by decide, by decide,
    c10_apply_recheck_blocks_overwrite env0 _ flags0 _ "/s" (by decide) (by decide)⟩

end KegbotSetup

namespace KegbotSetup

/-! ### Claim C4 -/

/-- Claim C4: when the resolved settings file path names an existing file,
`SettingsPath.validate` raises the invalid-value error; a non-interactive
run then exits with code 1 leaving the filesystem untouched; and, in every
run whatever the context (so in interactive runs too), the second pass
never overwrites any pre-existing file. -/
theorem c4_existing_settings_not_overwritten :
    (∀ env fs v ctx, pathExists fs (expanduser env.home v) = true →
      SettingsPath.validate env fs (.str v) ctx =
        .error (.valueError ("Settings file \"" ++ expanduser env.home v ++ "\" already exists."))) ∧
    (∀ env fs flags, pathExists fs (expanduser env.home flags.settings_file) = true →
      ∃ m, runNonInteractive env fs flags = ⟨.exit1 m, fs, []⟩) ∧
    (∀ env fs flags ctx q c, fileContent fs q = some c →
      fileContent (mainLoopSecondPass env fs flags ctx).fs q = some c) := by
  refine ⟨?_, ?_, ?_⟩
  · intro env fs v ctx h
    simp [SettingsPath, h]
  · intro env fs flags h
    cases hpil : env.pilAvailable with
    | false =>
      exact ⟨"Could not locate Python Imaging Library, please install it (\"pip install pillow\" or \"apt-get install python-imaging\")",
        by simp [runNonInteractive, build, STEPS, buildSteps, stepRunOnce, RequiredLibraries, hpil]⟩
    | true =>
      exact ⟨"Settings file \"" ++ expanduser env.home flags.settings_file ++ "\" already exists.",
        by simp [runNonInteractive, build, STEPS, buildSteps, stepRunOnce, RequiredLibraries,
          SettingsPath, hpil, h]⟩
  · intro env fs flags ctx q c h
    have hq : pathExists fs q = true := pathExists_of_fileContent h
    simp only [mainLoopSecondPass, applySteps_STEPS_eq]
    cases hSP : SettingsPath.applyStep fs ctx with
    | error e => cases e <;> (dsimp only; exact h)
    | ok fsA =>
      have hA : fsA.files = fs.files :=
        preservesFiles_STEPS SettingsPath (by simp [STEPS]) fs ctx fsA hSP
      dsimp only
      cases hKDR : KegbotDataRoot.applyStep fsA ctx with
      | error e =>
        cases e <;> (dsimp only; rw [fileContent_eq_of_files_eq hA q]; exact h)
      | ok fsB =>
        have hB : fsB.files = fs.files := by
          rw [preservesFiles_STEPS KegbotDataRoot (by simp [STEPS]) fsA ctx fsB hKDR, hA]
        have hBq : fileContent fsB q = some c := by
          rw [fileContent_eq_of_files_eq hB q]; exact h
        dsimp only
        cases hcg : ctxGet ctx "SettingsPath" with
        | none => dsimp only; exact hBq
        | some v =>
          cases v with
          | noneVal => dsimp only; exact hBq
          | mysql u pw d => dsimp only; exact hBq
          | str path =>
            dsimp only
            have hnex : pathExists fs path = false :=
              settingsPath_apply_ok_not_exists hcg hSP
            have hne : ¬(q = path) := by
              intro hqp
              rw [hqp, hnex] at hq
              cases hq
            by_cases hd : isDir fsB path
            · simp only [hd, if_true]
              exact hBq
            · simp only [hd, Bool.false_eq_true, if_false]
              have hw : ∀ content,
                  fileContent (writeFile fsB path content) q = some c := by
                intro content
                rw [fileContent_writeFile_ne hne]
                exact hBq
              split
              · exact hw _
              · exact hw _
              · exact hw _
              · split
                · exact hw _
                · exact hw _
  
/-- Witness for C4: concrete instantiations of all three parts. -/
theorem c4_witness :
    (SettingsPath.validate env0 { files := [("/home/kb/.kegbot/local_settings.py", "x")], dirs := [] }
        (.str "~/.kegbot/local_settings.py") [] =
      .error (.valueError "Settings file \"/home/kb/.kegbot/local_settings.py\" already exists.")) ∧
    (∃ m, runNonInteractive env0 { files := [("/home/kb/.kegbot/local_settings.py", "x")], dirs := [] } flags0 =
      ⟨.exit1 m, { files := [("/home/kb/.kegbot/local_settings.py", "x")], dirs := [] }, []⟩) ∧
    (fileContent (mainLoopSecondPass env0 { files := [("/old", "keep")], dirs := [] } flags0
        [("SettingsPath", StepValue.str "/new"), ("KegbotDataRoot", StepValue.str "/data"),
          ("DatabaseChoice", StepValue.str "sqlite"), ("ConfigureDatabase", StepValue.str "kb.sqlite")]).fs
      "/old" = some "keep") := by
  refine ⟨?_, ?_, ?_⟩
  · have := c4_existing_settings_not_overwritten.1 env0
      { files := [("/home/kb/.kegbot/local_settings.py", "x")], dirs := [] }
      "~/.kegbot/local_settings.py" [] (by decide)
    simpa using this
  · exact c4_existing_settings_not_overwritten.2.1 env0
      { files := [("/home/kb/.kegbot/local_settings.py", "x")], dirs := [] } flags0 (by decide)
  · exact c4_existing_settings_not_overwritten.2.2 env0
      { files := [("/old", "keep")], dirs := [] } flags0
      [("SettingsPath", StepValue.str "/new"), ("KegbotDataRoot", StepValue.str "/data"),
        ("DatabaseChoice", StepValue.str "sqlite"), ("ConfigureDatabase", StepValue.str "kb.sqlite")]
      "/old" "keep" (by decide)

end KegbotSetup

namespace KegbotSetup

/-! ### Claim C2 -/

/-- Claim C2: a non-interactive run whose `db_type` flag is neither
`sqlite` nor `mysql` stops during the build/validation pass: the trace is
empty (in particular no settings file is opened), the filesystem is
unchanged, and the run exits with code 1 — except in the pathological
state where the data root names an existing non-directory, in which case
the run dies earlier of the uncaught `OSError` from `os.listdir` (which
also terminates the process before any file is written). -/
theorem c2_invalid_dbtype_aborts (env : Env) (fs : FileSystem) (flags : Flags)
    (hs : ¬(flags.db_type = "sqlite")) (hm : ¬(flags.db_type = "mysql")) :
    (runNonInteractive env fs flags).trace = [] ∧
    (runNonInteractive env fs flags).fs = fs ∧
    ((∃ m, (runNonInteractive env fs flags).outcome = .exit1 m) ∨
      (∃ m, (runNonInteractive env fs flags).outcome = .crash m)) ∧
    ((pathExists fs (expanduser env.home flags.data_root) = true →
        (listdir fs (expanduser env.home flags.data_root)).isSome) →
      ∃ m, (runNonInteractive env fs flags).outcome = .exit1 m) := by
  have key : ∃ o, build env fs flags = .error o ∧
      ((∃ m, o = .exit1 m) ∨ (∃ m, o = .crash m)) ∧
      ((pathExists fs (expanduser env.home flags.data_root) = true →
        (listdir fs (expanduser env.home flags.data_root)).isSome) → ∃ m, o = .exit1 m) := by
    cases hpil : env.pilAvailable with
    | false =>
      refine ⟨.exit1 "Could not locate Python Imaging Library, please install it (\"pip install pillow\" or \"apt-get install python-imaging\")",
        ?_, Or.inl ⟨_, rfl⟩, fun _ => ⟨_, rfl⟩⟩
      simp [build, STEPS, buildSteps, stepRunOnce, RequiredLibraries, hpil]
    | true =>
      by_cases hsp : pathExists fs (expanduser env.home flags.settings_file)
      · refine ⟨.exit1 ("Settings file \"" ++ expanduser env.home flags.settings_file ++ "\" already exists."),
          ?_, Or.inl ⟨_, rfl⟩, fun _ => ⟨_, rfl⟩⟩
        simp [build, STEPS, buildSteps, stepRunOnce, RequiredLibraries, SettingsPath, hpil, hsp]
      · by_cases hdr : pathExists fs (expanduser env.home flags.data_root)
        · cases hld : listdir fs (expanduser env.home flags.data_root) with
          | none =>
            refine ⟨.crash "listdir on a non-directory", ?_, Or.inr ⟨_, rfl⟩, fun hben => ?_⟩
            · simp [build, STEPS, buildSteps, stepRunOnce, RequiredLibraries, SettingsPath,
                KegbotDataRoot, hpil, hsp, hdr, hld]
            · exfalso
              have := hben hdr
              simp at this
          | some l =>
            cases l with
            | nil =>
              refine ⟨.exit1 "Value must be one of: sqlite, mysql",
                ?_, Or.inl ⟨_, rfl⟩, fun _ => ⟨_, rfl⟩⟩
              simp [build, STEPS, buildSteps, stepRunOnce, RequiredLibraries, SettingsPath,
                KegbotDataRoot, DatabaseChoice, hpil, hsp, hdr, hld, hs, hm]
            | cons a l' =>
              refine ⟨.exit1 ("Path \"" ++ expanduser env.home flags.data_root ++ "\" already exists and is not empty."),
                ?_, Or.inl ⟨_, rfl⟩, fun _ => ⟨_, rfl⟩⟩
              simp [build, STEPS, buildSteps, stepRunOnce, RequiredLibraries, SettingsPath,
                KegbotDataRoot, hpil, hsp, hdr, hld]
        · refine ⟨.exit1 "Value must be one of: sqlite, mysql",
            ?_, Or.inl ⟨_, rfl⟩, fun _ => ⟨_, rfl⟩⟩
          simp [build, STEPS, buildSteps, stepRunOnce, RequiredLibraries, SettingsPath,
            KegbotDataRoot, DatabaseChoice, hpil, hsp, hdr, hs, hm]
  obtain ⟨o, hbuild, hshape, hben⟩ := key
  simp only [runNonInteractive, hbuild]
  exact ⟨trivial, trivial, hshape, hben⟩

/-- Witness for C2 with `db_type` set to `postgres` on an empty filesystem. -/
theorem c2_witness :
    ¬(flagsBadDb.db_type = "sqlite") ∧ ¬(flagsBadDb.db_type = "mysql") ∧
    ((runNonInteractive env0 fs0 flagsBadDb).trace = [] ∧
      (runNonInteractive env0 fs0 flagsBadDb).fs = fs0 ∧
      ((∃ m, (runNonInteractive env0 fs0 flagsBadDb).outcome = .exit1 m) ∨
        (∃ m, (runNonInteractive env0 fs0 flagsBadDb).outcome = .crash m)) ∧
      ((pathExists fs0 (expanduser env0.home flagsBadDb.data_root) = true →
          (listdir fs0 (expanduser env0.home flagsBadDb.data_root)).isSome) →
        ∃ m, (runNonInteractive env0 fs0 flagsBadDb).outcome = .exit1 m)) :=
  ⟨by decide, by decide, c2_invalid_dbtype_aborts env0 fs0 flagsBadDb (by decide) (by decide)⟩

end KegbotSetup

namespace KegbotSetup

/-! ### Claims C7 and C8 -/

/-- Claim C7: with database type `mysql`, an empty resolved username makes
`ConfigureDatabase.validate` fail with the missing-username error — both
for an arbitrary tuple value with empty user and for the value resolved
from an empty `mysql_user` flag in a non-interactive step round. -/
theorem c7_mysql_empty_username :
    (∀ env fs ctx pw db, ctxGet ctx "DatabaseChoice" = some (.str "mysql") →
      ConfigureDatabase.validate env fs (.mysql "" pw db) ctx =
        .error (.valueError "Must give a MySQL username")) ∧
    (∀ env fs flags ctx, ctxGet ctx "DatabaseChoice" = some (.str "mysql") →
      flags.mysql_user = "" →
      stepRunOnce env fs flags ConfigureDatabase ctx =
        .error (.valueError "Must give a MySQL username")) := by
  constructor
  · intro env fs ctx pw db h
    simp [ConfigureDatabase, h]
  · intro env fs flags ctx h hu
    have hget : ConfigureDatabase.getFlag flags ctx =
        .ok (.mysql "" flags.mysql_password flags.mysql_database) := by
      simp [ConfigureDatabase, h, hu]
    have hval : ConfigureDatabase.validate env fs
        (.mysql "" flags.mysql_password flags.mysql_database) ctx =
        .error (.valueError "Must give a MySQL username") := by
      simp [ConfigureDatabase, h]
    simp [stepRunOnce, hget, hval]

/-- Witness for C7 at a concrete context. -/
theorem c7_witness :
    (ConfigureDatabase.validate env0 fs0 (.mysql "" "pw" "kegbot")
        [("DatabaseChoice", StepValue.str "mysql")] =
      .error (.valueError "Must give a MySQL username")) ∧
    (stepRunOnce env0 fs0 flagsMysqlNoUser ConfigureDatabase
        [("DatabaseChoice", StepValue.str "mysql")] =
      .error (.valueError "Must give a MySQL username")) :=
  ⟨c7_mysql_empty_username.1 env0 fs0 [("DatabaseChoice", StepValue.str "mysql")]
      "pw" "kegbot" (by decide),
    c7_mysql_empty_username.2 env0 fs0 flagsMysqlNoUser
      [("DatabaseChoice", StepValue.str "mysql")] (by decide) (by decide)⟩

/-- Claim C8: when the resolved data root names an existing directory with
a non-empty listing, `KegbotDataRoot.validate` raises the invalid-value
error. -/
theorem c8_nonempty_dataroot_fails (env : Env) (fs : FileSystem) (v : String) (ctx : Ctx)
    (a : String) (l : List String)
    (hld : listdir fs (expanduser env.home v) = some (a :: l)) :
    KegbotDataRoot.validate env fs (.str v) ctx =
      .error (.valueError ("Path \"" ++ expanduser env.home v ++ "\" already exists and is not empty.")) := by
  have hex : pathExists fs (expanduser env.home v) = true := listdir_pathExists hld
  simp [KegbotDataRoot, hex, hld]

/-- Witness for C8: a data root containing one entry. -/
theorem c8_witness :
    listdir { files := [], dirs := [("/home/kb/kegbot-data", ["stuff"])] }
        (expanduser env0.home "~/kegbot-data") = some ("stuff" :: []) ∧
    KegbotDataRoot.validate env0 { files := [], dirs := [("/home/kb/kegbot-data", ["stuff"])] }
        (.str "~/kegbot-data") [] =
      .error (.valueError "Path \"/home/kb/kegbot-data\" already exists and is not empty.") := by
  refine ⟨by decide, ?_⟩
  have := c8_nonempty_dataroot_fails env0
    { files := [], dirs := [("/home/kb/kegbot-data", ["stuff"])] } "~/kegbot-data" []
    "stuff" [] (by decide)
  simpa using this

end KegbotSetup

namespace KegbotSetup

/-! ### Claims C5 and C6 -/

/-- Claim C5: error dispatch.  In the interactive loop a `ValueError`
round only re-prompts (the loop outcome is that of the remaining rounds,
equivalently of the stream with the leading `ValueError` rounds dropped),
while a `FatalError` exits immediately; in the non-interactive `build`
loop both a `ValueError` and a `FatalError` at any step abort the whole
run with exit code 1. -/
theorem c5_error_dispatch :
    (∀ m rest, build_interactive_step (.valueErr m :: rest) = build_interactive_step rest) ∧
    (∀ l, build_interactive_step l =
      build_interactive_step (l.dropWhile (fun a =>
        match a with | .valueErr _ => true | _ => false))) ∧
    (∀ m rest, build_interactive_step (.fatalErr m :: rest) = .exited) ∧
    (∀ env fs flags st rest ctx m,
      stepRunOnce env fs flags st ctx = .error (.valueError m) →
      buildSteps env fs flags (st :: rest) ctx = .error (.exit1 m)) ∧
    (∀ env fs flags st rest ctx m,
      stepRunOnce env fs flags st ctx = .error (.fatalError m) →
      buildSteps env fs flags (st :: rest) ctx = .error (.exit1 m)) := by
  refine ⟨fun m rest => rfl, ?_, fun m rest => rfl, ?_, ?_⟩
  · intro l
    induction l with
    | nil => rfl
    | cons a l' ih =>
      cases a with
      | ok v => rfl
      | valueErr m => simpa [List.dropWhile] using ih
      | fatalErr m => rfl
      | interrupt => rfl
  · intro env fs flags st rest ctx m h
    simp [buildSteps, h]
  · intro env fs flags st rest ctx m h
    simp [buildSteps, h]

/-- Witness for C5: concrete streams and concrete failing steps. -/
theorem c5_witness :
    (build_interactive_step [.valueErr "bad", .ok (.str "v")] =
      build_interactive_step [.ok (.str "v")]) ∧
    (build_interactive_step [.fatalErr "dead", .ok (.str "v")] = .exited) ∧
    (buildSteps env0 fs0 flagsBadDb [DatabaseChoice] [] =
      .error (.exit1 "Value must be one of: sqlite, mysql")) ∧
    (buildSteps envNoPil fs0 flags0 [RequiredLibraries] [] =
      .error (.exit1 "Could not locate Python Imaging Library, please install it (\"pip install pillow\" or \"apt-get install python-imaging\")")) :=
  ⟨c5_error_dispatch.1 "bad" [.ok (.str "v")],
    c5_error_dispatch.2.2.1 "dead" [.ok (.str "v")],
    c5_error_dispatch.2.2.2.1 env0 fs0 flagsBadDb DatabaseChoice [] [] _ rfl,
    c5_error_dispatch.2.2.2.2 envNoPil fs0 flags0 RequiredLibraries [] [] _ rfl⟩

/-- Claim C6: `finish_setup` executes the fixed command sequence in order;
each command string is split on whitespace into its argument vector; the
executed vectors always form an initial segment of the split sequence; if
every exit status is zero the whole sequence runs with no failure; and a
non-zero exit status at any command stops the sequence right there (the
following commands never run) and reports the failure message. -/
theorem c6_command_sequence :
    (∀ e inter, ∃ t, (run_command_seq e (finishCommands inter)).1 ++ t =
      (finishCommands inter).map pySplit) ∧
    (∀ e inter, (∀ c ∈ finishCommands inter, e (pySplit c) = 0) →
      run_command_seq e (finishCommands inter) = ((finishCommands inter).map pySplit, none)) ∧
    (∀ e inter pre c post, finishCommands inter = pre ++ c :: post →
      (∀ c' ∈ pre, e (pySplit c') = 0) → ¬(e (pySplit c) = 0) →
      run_command_seq e (finishCommands inter) =
        (pre.map pySplit ++ [pySplit c],
          some ("Command returned non-zero exit status (" ++ toString (e (pySplit c)) ++ ")"))) := by
  refine ⟨fun e inter => run_command_seq_take e _, fun e inter h => run_command_seq_all_zero e _ h,
    ?_⟩
  intro e inter pre c post hdecomp hpre hc
  rw [hdecomp]
  exact run_command_seq_fails_at e pre c post hpre hc

/-- Witness for C6: the third command of the non-interactive sequence
fails with status 1, so only the first three commands run. -/
theorem c6_witness :
    run_command_seq
        (fun argv => if argv = ["kegbot-admin.py", "kb_set_defaults", "--force"] then 1 else 0)
        (finishCommands false) =
      ([["kegbot-admin.py", "syncdb", "--all", "--noinput", "-v", "0"],
        ["kegbot-admin.py", "migrate", "--all", "--fake", "--noinput", "-v", "0"],
        ["kegbot-admin.py", "kb_set_defaults", "--force"]],
        some "Command returned non-zero exit status (1)") := by
  have h := c6_command_sequence.2.2
    (fun argv => if argv = ["kegbot-admin.py", "kb_set_defaults", "--force"] then 1 else 0)
    false
    ["kegbot-admin.py syncdb --all --noinput -v 0",
      "kegbot-admin.py migrate --all --fake --noinput -v 0"]
    "kegbot-admin.py kb_set_defaults --force"
    ["kegbot-admin.py collectstatic --noinput"]
    (by decide) (by decide) (by decide)
  simpa using h

end KegbotSetup

namespace KegbotSetup

/-! ### Claim C1 -/

set_option maxRecDepth 4000

/-- Claim C1 fails on the code: in a valid non-interactive sqlite run with
the default flags declared by the script, the run succeeds and the generated
settings file has engine `django.db.backends.sqlite3`, but the written `NAME` is
the raw `sqlite_file` flag value `kegbot.sqlite` — a relative path — and
not the absolute path of the database file inside the data root
(`/home/kb/kegbot-data/kegbot.sqlite`): `ConfigureDatabase.get_from_flag`
never joins the flag with the data root, although the help text of the flag
itself says the file lives within `data_root` and the interactive prompt
path does join the two. -/
theorem c1_sqlite_name_not_resolved :
    (runNonInteractive env0 fs0 flags0).outcome = .success ∧
    strContains
      ((fileContent (runNonInteractive env0 fs0 flags0).fs
        "/home/kb/.kegbot/local_settings.py").getD "")
      "\x27ENGINE\x27: \x27django.db.backends.sqlite3\x27" = true ∧
    strContains
      ((fileContent (runNonInteractive env0 fs0 flags0).fs
        "/home/kb/.kegbot/local_settings.py").getD "")
      "\x27NAME\x27: \x27kegbot.sqlite\x27" = true ∧
    strContains
      ((fileContent (runNonInteractive env0 fs0 flags0).fs
        "/home/kb/.kegbot/local_settings.py").getD "")
      ("\x27NAME\x27: \x27"
        ++ joinPath (expanduser env0.home flags0.data_root) flags0.sqlite_file
        ++ "\x27") = false ∧
    strStartsWith "kegbot.sqlite" "/" = false := by
  refine ⟨by decide, by decide, by decide, by decide, by decide⟩

/-! ### Claim C3 -/

/-- Claim C3, as stated, fails on the code, in two independent ways.
First, with the settings path `/d/f/local_settings.py` whose parent
`/d/f` is an existing regular file, every step passes validation (the
first pass returns a full context), yet the second pass stops in
`SettingsPath.apply` with an uncaught `FatalError`: `add_to_settings` is
never called for any step, no file is opened, and nothing is written.
Second, with the settings path equal to the data root `/d/root`, every
step passes validation AND the apply pass raises no error — all five
`apply` hooks run, `KegbotDataRoot.apply` creating a directory at the
settings path — yet opening the settings file for writing dies of the uncaught
`IOError (Is a directory)`: again no step emits and no file is written.
The two scenarios force, respectively, the apply-pass-succeeds condition
and the path-is-not-a-directory condition of the amended claim. -/
theorem c3_counterexample :
    (build env0 fsC flagsC =
      .ok [("ConfigureDatabase", StepValue.str "kb.sqlite"),
        ("DatabaseChoice", StepValue.str "sqlite"),
        ("KegbotDataRoot", StepValue.str "/d/root"),
        ("SettingsPath", StepValue.str "/d/f/local_settings.py")] ∧
    (runNonInteractive env0 fsC flagsC).trace =
      [.applyCalled "RequiredLibraries", .applyCalled "SettingsPath"] ∧
    (runNonInteractive env0 fsC flagsC).outcome =
      .uncaughtFatal "Couldn\x27t create settings dir \x27/d/f\x27" ∧
    (runNonInteractive env0 fsC flagsC).fs = fsC) ∧
    (build env0 fs0 flagsD =
      .ok [("ConfigureDatabase", StepValue.str "kb.sqlite"),
        ("DatabaseChoice", StepValue.str "sqlite"),
        ("KegbotDataRoot", StepValue.str "/d/root"),
        ("SettingsPath", StepValue.str "/d/root")] ∧
    (applySteps
        [("ConfigureDatabase", StepValue.str "kb.sqlite"),
          ("DatabaseChoice", StepValue.str "sqlite"),
          ("KegbotDataRoot", StepValue.str "/d/root"),
          ("SettingsPath", StepValue.str "/d/root")] STEPS fs0).2.2 = none ∧
    (runNonInteractive env0 fs0 flagsD).trace =
      [.applyCalled "RequiredLibraries", .applyCalled "SettingsPath",
        .applyCalled "KegbotDataRoot", .applyCalled "DatabaseChoice",
        .applyCalled "ConfigureDatabase"] ∧
    (runNonInteractive env0 fs0 flagsD).outcome = .crash "IsADirectoryError" ∧
    fileContent (runNonInteractive env0 fs0 flagsD).fs "/d/root" = none) :=
  ⟨⟨rfl, by decide, by decide, by decide⟩,
    ⟨rfl, by decide, by decide, by decide, by decide⟩⟩

theorem isPrefixL_self_append (xs t : List Char) : isPrefixL xs (xs ++ t) = true := by
  have h := isPrefixL_append_same xs [] t
  rw [List.append_nil] at h
  rw [h]
  rfl

/-- Claim C3 amended: in every run in which all steps pass validation,
the second pass first calls `apply` for every step in the fixed order;
if the apply pass raises no error and the settings path does not then
name a directory, the settings file is opened and `add_to_settings` is
called for every step in the fixed order, and the file content is the
fixed header template followed by the concatenation of the five emitted
fragments in step order (those of `RequiredLibraries`, `SettingsPath` and
`DatabaseChoice` being empty).  The two hypotheses are exactly the two
conditions the counterexample shows to be necessary. -/
theorem c3_apply_then_emit_amended (env : Env) (fs : FileSystem) (flags : Flags) (ctx : Ctx)
    (path f3 f5 : String)
    (happ : (applySteps ctx STEPS fs).2.2 = none)
    (hsp : ctxGet ctx "SettingsPath" = some (.str path))
    (hnd : isDir (applySteps ctx STEPS fs).2.1 path = false)
    (h3 : KegbotDataRoot.addToSettings ctx = .ok f3)
    (h5 : ConfigureDatabase.addToSettings ctx = .ok f5) :
    (mainLoopSecondPass env fs flags ctx).trace =
      STEPS.map (fun st => Event.applyCalled st.name) ++
        .openedFile path :: (STEPS.map (fun st => Event.emitted st.name) ++
          (run_command_seq env.cmdExit (finishCommands flags.interactive)).1.map .ranCommand) ∧
    fileContent (mainLoopSecondPass env fs flags ctx).fs path =
      some (SETTINGS_TEMPLATE ++ ("" ++ ("" ++ (f3 ++ ("" ++ (f5 ++ "")))))) ∧
    isPrefixL SETTINGS_TEMPLATE.data
      (SETTINGS_TEMPLATE ++ ("" ++ ("" ++ (f3 ++ ("" ++ (f5 ++ "")))))).data = true := by
  have hev := applySteps_ok_events ctx STEPS fs happ
  simp only [mainLoopSecondPass]
  rw [happ]
  dsimp only
  rw [hsp]
  dsimp only
  simp only [hnd, Bool.false_eq_true, if_false]
  rw [emitSteps_STEPS_eq, h3, h5]
  dsimp only
  cases hcr : (run_command_seq env.cmdExit (finishCommands flags.interactive)).2 with
  | some m =>
    dsimp only
    refine ⟨?_, ?_, ?_⟩
    · rw [hev]; rfl
    · exact fileContent_writeFile_self _ _ _
    · rw [strData_append]; exact isPrefixL_self_append _ _
  | none =>
    dsimp only
    refine ⟨?_, ?_, ?_⟩
    · rw [hev]; rfl
    · exact fileContent_writeFile_self _ _ _
    · rw [strData_append]; exact isPrefixL_self_append _ _

end KegbotSetup

namespace KegbotSetup

/-! ### Claim C9 -/

theorem strData_empty : "".data = [] := rfl

/-- Claim C9: after every successful run (any run whose second pass ends
in `success`, interactive or not), the `media` and `static` directories
exist under the resolved data root recorded in the context, and the
generated settings file contains `MEDIA_ROOT` and `STATIC_ROOT`
assignments pointing at exactly those two subdirectories. -/
theorem c9_media_static_subdirs (env : Env) (fs : FileSystem) (flags : Flags) (ctx : Ctx)
    (v : String)
    (hsucc : (mainLoopSecondPass env fs flags ctx).outcome = .success)
    (hdr : ctxGet ctx "KegbotDataRoot" = some (.str v)) :
    isDir (mainLoopSecondPass env fs flags ctx).fs (joinPath v "media") = true ∧
    isDir (mainLoopSecondPass env fs flags ctx).fs (joinPath v "static") = true ∧
    ∃ p content, ctxGet ctx "SettingsPath" = some (.str p) ∧
      fileContent (mainLoopSecondPass env fs flags ctx).fs p = some content ∧
      strContains content ("MEDIA_ROOT = \x27" ++ joinPath v "media" ++ "\x27\n") = true ∧
      strContains content ("STATIC_ROOT = \x27" ++ joinPath v "static" ++ "\x27\n") = true := by
  have h3 := kegbotDataRoot_emit hdr
  simp only [mainLoopSecondPass, applySteps_STEPS_eq] at hsucc ⊢
  cases hSP : SettingsPath.applyStep fs ctx with
  | error e =>
    rw [hSP] at hsucc
    cases e <;> simp at hsucc
  | ok fsA =>
    rw [hSP] at hsucc
    dsimp only at hsucc ⊢
    cases hKDR : KegbotDataRoot.applyStep fsA ctx with
    | error e =>
      rw [hKDR] at hsucc
      cases e <;> simp at hsucc
    | ok fsB =>
      rw [hKDR] at hsucc
      dsimp only at hsucc ⊢
      have hdirs := kegbotDataRoot_apply_ok_dirs hdr hKDR
      cases hcg : ctxGet ctx "SettingsPath" with
      | none =>
        rw [hcg] at hsucc
        simp at hsucc
      | some pv =>
        rw [hcg] at hsucc
        cases pv with
        | noneVal => simp at hsucc
        | mysql a b c => simp at hsucc
        | str p =>
          dsimp only at hsucc ⊢
          by_cases hd : isDir fsB p
          · simp [hd] at hsucc
          · simp only [hd, Bool.false_eq_true, if_false] at hsucc ⊢
            rw [emitSteps_STEPS_eq, h3] at hsucc ⊢
            cases h5 : ConfigureDatabase.addToSettings ctx with
            | error e =>
              rw [h5] at hsucc
              cases e <;> simp at hsucc
            | ok f5 =>
              rw [h5] at hsucc
              dsimp only at hsucc ⊢
              cases hcr : (run_command_seq env.cmdExit (finishCommands flags.interactive)).2 with
              | some m =>
                rw [hcr] at hsucc
                simp at hsucc
              | none =>
                dsimp only at hsucc ⊢
                refine ⟨?_, ?_, p, _, rfl, fileContent_writeFile_self _ _ _, ?_, ?_⟩
                · rw [isDir_writeFile]; exact hdirs.1
                · rw [isDir_writeFile]; exact hdirs.2
                · simp only [strContains, strData_append, strData_empty,
                    List.append_assoc, List.nil_append, List.append_nil]
                  apply containsL_append_left
                  apply containsL_of_isPrefixL
                  rw [isPrefixL_append_same, isPrefixL_append_same]
                  exact isPrefixL_self_append _ _
                · simp only [strContains, strData_append, strData_empty,
                    List.append_assoc, List.nil_append, List.append_nil]
                  apply containsL_append_left
                  apply containsL_append_left
                  apply containsL_append_left
                  apply containsL_append_left
                  apply containsL_of_isPrefixL
                  rw [isPrefixL_append_same, isPrefixL_append_same]
                  exact isPrefixL_self_append _ _

end KegbotSetup

namespace KegbotSetup

/-- Witness for the amended C3 at the context of the default flags. -/
theorem c3_witness :
    (mainLoopSecondPass env0 fs0 flags0 ctx0).trace =
      STEPS.map (fun st => Event.applyCalled st.name) ++
        .openedFile "/home/kb/.kegbot/local_settings.py" ::
          (STEPS.map (fun st => Event.emitted st.name) ++
            (run_command_seq env0.cmdExit (finishCommands flags0.interactive)).1.map .ranCommand) ∧
    fileContent (mainLoopSecondPass env0 fs0 flags0 ctx0).fs
        "/home/kb/.kegbot/local_settings.py" =
      some (SETTINGS_TEMPLATE ++
        ("" ++ ("" ++
          ("MEDIA_ROOT = \x27/home/kb/kegbot-data/media\x27\nSTATIC_ROOT = \x27/home/kb/kegbot-data/static\x27\n\n" ++
            ("" ++
              ("DATABASES = \x7b\x27default\x27: \x7b\x27ENGINE\x27: \x27django.db.backends.sqlite3\x27, \x27NAME\x27: \x27kegbot.sqlite\x27\x7d\x7d\n\n" ++
                "")))))) ∧
    isPrefixL SETTINGS_TEMPLATE.data
      (SETTINGS_TEMPLATE ++
        ("" ++ ("" ++
          ("MEDIA_ROOT = \x27/home/kb/kegbot-data/media\x27\nSTATIC_ROOT = \x27/home/kb/kegbot-data/static\x27\n\n" ++
            ("" ++
              ("DATABASES = \x7b\x27default\x27: \x7b\x27ENGINE\x27: \x27django.db.backends.sqlite3\x27, \x27NAME\x27: \x27kegbot.sqlite\x27\x7d\x7d\n\n" ++
                "")))))).data = true :=
  c3_apply_then_emit_amended env0 fs0 flags0 ctx0 "/home/kb/.kegbot/local_settings.py"
    "MEDIA_ROOT = \x27/home/kb/kegbot-data/media\x27\nSTATIC_ROOT = \x27/home/kb/kegbot-data/static\x27\n\n"
    "DATABASES = \x7b\x27default\x27: \x7b\x27ENGINE\x27: \x27django.db.backends.sqlite3\x27, \x27NAME\x27: \x27kegbot.sqlite\x27\x7d\x7d\n\n"
    (by decide) (by decide) (by decide) rfl rfl

/-- Witness for C9 at the context of the default flags. -/
theorem c9_witness :
    isDir (mainLoopSecondPass env0 fs0 flags0 ctx0).fs
      (joinPath "/home/kb/kegbot-data" "media") = true ∧
    isDir (mainLoopSecondPass env0 fs0 flags0 ctx0).fs
      (joinPath "/home/kb/kegbot-data" "static") = true ∧
    ∃ p content, ctxGet ctx0 "SettingsPath" = some (.str p) ∧
      fileContent (mainLoopSecondPass env0 fs0 flags0 ctx0).fs p = some content ∧
      strContains content
        ("MEDIA_ROOT = \x27" ++ joinPath "/home/kb/kegbot-data" "media" ++ "\x27\n") = true ∧
      strContains content
        ("STATIC_ROOT = \x27" ++ joinPath "/home/kb/kegbot-data" "static" ++ "\x27\n") = true :=
  c9_media_static_subdirs env0 fs0 flags0 ctx0 "/home/kb/kegbot-data" (by decide) (by decide)

end KegbotSetup
